import Mathlib

/-!
Verification of the offline TTS application (`src/tts_app.py`).

Shallow embedding of the task-executor worker (`TTSWorker`) and the
playback controller (`OfflineTTSApp`), with theorems settling the
spec claims about command handling, affordance management and the
playback state machine.

External collaborators (filesystem, network download, archive
extraction, the sherpa-onnx engine, pygame audio device, temp-file
allocation) are modelled as an environment oracle; the control flow
of the Python source is translated branch for branch.
-/

namespace Tts

/-- One entry of the static `MODELS` catalog (`src/tts_app.py:40`). -/
structure ModelInfo where
  url : String
  archive : String
  dir : String
  onnx : String
deriving DecidableEq

/-- The static voice catalog `MODELS` (`src/tts_app.py:40-53`),
as an association list keyed by display name. -/
def MODELS : List (String × ModelInfo) :=
  [("Female (Amy)",
    ⟨"https://github.com/k2-fsa/sherpa-onnx/releases/download/tts-models/vits-piper-en_US-amy-low.tar.bz2",
     "vits-piper-en_US-amy-low.tar.bz2",
     "vits-piper-en_US-amy-low",
     "en_US-amy-low.onnx"⟩),
   ("Male (Ryan)",
    ⟨"https://github.com/k2-fsa/sherpa-onnx/releases/download/tts-models/vits-piper-en_US-ryan-low.tar.bz2",
     "vits-piper-en_US-ryan-low.tar.bz2",
     "vits-piper-en_US-ryan-low",
     "en_US-ryan-low.onnx"⟩)]

/-- The in-memory synthesis engine (`sherpa_onnx.OfflineTts`), identified by
the config it was constructed from (`src/tts_app.py:138-149`). -/
structure Engine where
  model : String
  tokens : String
  data_dir : String
deriving DecidableEq

/-- Output of `tts.generate` (`src/tts_app.py:165`): samples plus a rate.
Sample values are irrelevant to every claim, so they are opaque integers. -/
structure Audio where
  sample_rate : Nat
  samples : List Int
deriving DecidableEq

/-- A message on the result channel (`result_queue`): the dictionaries put by
`TTSWorker.log` (`src/tts_app.py:86`), `load_model` (`:116,152`) and
`generate_speech` (`:180`). -/
inductive Result where
  | log (msg : String)
  | model_loaded (voice : String)
  | generation_complete (file_path : String) (is_temp : Bool)
deriving DecidableEq

/-- A message on the command channel (`cmd_queue`): the dictionaries put by
`change_voice`, `on_gen_play`, `on_save` and `on_closing`. -/
inductive Command where
  | load_model (voice_name : String)
  | generate (text : String) (file_path : Option String)
  | quit
deriving DecidableEq

/-- The worker's mutable state: `self.tts` and `self.current_voice_name`
(`src/tts_app.py:80-81`). -/
structure WorkerState where
  tts : Option Engine
  current_voice_name : Option String
deriving DecidableEq

/-- Environment oracle for the worker's external collaborators:
module availability, filesystem, network, extraction, engine
construction, synthesis, temp-file allocation and file writing. -/
structure WEnv where
  /-- whether `sherpa_onnx` imported (`HAS_TTS`, `src/tts_app.py:26-30`). -/
  hasTTS : Bool
  /-- `os.path.exists`. -/
  pathExists : String → Bool
  /-- whether `download_file` returns `True` (`src/tts_app.py:55-64`). -/
  downloadOk : Bool
  /-- progress messages the download reporthook pushes through `self.log`. -/
  progressLogs : List String
  /-- whether `extract_file` returns `True` (`src/tts_app.py:66-72`). -/
  extractOk : Bool
  /-- whether `sherpa_onnx.OfflineTts(config)` succeeds (`src/tts_app.py:149`). -/
  engineOk : Bool
  /-- exception text when engine construction fails (`src/tts_app.py:155`). -/
  loadErr : String
  /-- the elapsed-time string interpolated at `src/tts_app.py:167`. -/
  elapsed : String
  /-- `tts.generate`: `none` means the engine raised (`src/tts_app.py:165`). -/
  synth : Engine → String → Option Audio
  /-- exception text of a failed generation (`src/tts_app.py:187`). -/
  genErr : String
  /-- the fresh path `tempfile.mkstemp` allocates (`src/tts_app.py:172`). -/
  tempPath : String
  /-- whether `wavfile.write` succeeds (`src/tts_app.py:178`). -/
  writeOk : Bool

/-- Outcome of one `load_model` call: the new worker state, the results put
on the result channel in order, and how many times each collaborator
(download, extraction, engine construction) was invoked. -/
structure LoadOutcome where
  state : WorkerState
  results : List Result
  downloads : Nat
  extracts : Nat
  constructions : Nat
deriving DecidableEq

/-- The final engine-construction phase of `load_model`
(`src/tts_app.py:136-155`): the `try` block that builds the config,
constructs the engine and on success installs it and emits
`model_loaded`; on exception keeps the prior state and logs the error.
`pre` are the results already emitted by the acquisition phase. -/
def load_engine (env : WEnv) (s : WorkerState) (voice_name : String)
    (model_info : ModelInfo) (pre : List Result) (dls exs : Nat) : LoadOutcome :=
  let model_onnx := model_info.dir ++ "/" ++ model_info.onnx
  let eng : Engine :=
    ⟨model_onnx, model_info.dir ++ "/tokens.txt", model_info.dir ++ "/espeak-ng-data"⟩
  if env.engineOk then
    ⟨⟨some eng, some voice_name⟩,
     pre ++ [Result.log "Loading Engine...",
             Result.log ("Loaded: " ++ voice_name),
             Result.model_loaded voice_name],
     dls, exs, 1⟩
  else
    ⟨s,
     pre ++ [Result.log "Loading Engine...",
             Result.log ("Error: " ++ env.loadErr)],
     dls, exs, 1⟩

/-- `TTSWorker.load_model` (`src/tts_app.py:109-155`), branch for branch.
Note that at `src/tts_app.py:133` the source discards the return value of
`extract_file`, so `env.extractOk` cannot influence the outcome; only the
invocation is counted in `extracts`. -/
def load_model (env : WEnv) (s : WorkerState) (voice_name : String) : LoadOutcome :=
  if env.hasTTS = false then
    ⟨s, [Result.log "Error: Sherpa-ONNX missing."], 0, 0, 0⟩
  else if s.tts.isSome && (s.current_voice_name == some voice_name) then
    ⟨s, [Result.log ("Voice '" ++ voice_name ++ "' already loaded."),
         Result.model_loaded voice_name], 0, 0, 0⟩
  else
    match MODELS.lookup voice_name with
    | none => ⟨s, [Result.log "Error: Unknown voice."], 0, 0, 0⟩
    | some model_info =>
      if env.pathExists (model_info.dir ++ "/" ++ model_info.onnx) then
        load_engine env s voice_name model_info [] 0 0
      else if env.pathExists model_info.archive then
        load_engine env s voice_name model_info
          [Result.log ("Downloading " ++ voice_name ++ "..."),
           Result.log "Extracting..."] 0 1
      else if env.downloadOk then
        load_engine env s voice_name model_info
          ([Result.log ("Downloading " ++ voice_name ++ "...")]
            ++ env.progressLogs.map Result.log
            ++ [Result.log "Extracting..."]) 1 1
      else
        ⟨s,
         [Result.log ("Downloading " ++ voice_name ++ "...")]
           ++ env.progressLogs.map Result.log
           ++ [Result.log "Download failed."],
         1, 0, 0⟩

/-- Outcome of one `generate_speech` call: the results put on the result
channel in order, and which engine (if any) synthesis was invoked on.
`generate_speech` never mutates the worker state. -/
structure GenOutcome where
  results : List Result
  usedEngine : Option Engine
deriving DecidableEq

/-- `TTSWorker.generate_speech` (`src/tts_app.py:157-187`), branch for
branch. The Python truthiness test `if not file_path` treats both `None`
and the empty string as absent. -/
def generate_speech (env : WEnv) (s : WorkerState) (text : String)
    (file_path : Option String) : GenOutcome :=
  match s.tts with
  | none => ⟨[Result.log "Model not loaded."], none⟩
  | some eng =>
    match env.synth eng text with
    | none =>
      ⟨[Result.log "Generating...", Result.log ("Gen Error: " ++ env.genErr)], some eng⟩
    | some _audio =>
      let done := [Result.log "Generating...",
                   Result.log ("Done (" ++ env.elapsed ++ "s)")]
      let fpt : String × Bool :=
        match file_path with
        | none => (env.tempPath, true)
        | some p => if p = "" then (env.tempPath, true) else (p, false)
      if env.writeOk then
        ⟨done ++ [Result.generation_complete fpt.1 fpt.2], some eng⟩
      else
        ⟨done ++ [Result.log ("Gen Error: " ++ env.genErr)], some eng⟩

/-! ## Playback controller (`OfflineTTSApp`) -/

/-- The controller's UI-visible state: the enabled/disabled state of the
five affordances (`tk.NORMAL` is `true`), the playback flags
`is_playing`/`is_paused` and the loaded artifact `audio_file`
(`src/tts_app.py:200-202` and the button widgets of `create_widgets`). -/
structure AppState where
  gen_enabled : Bool
  save_enabled : Bool
  pause_enabled : Bool
  resume_enabled : Bool
  stop_enabled : Bool
  ff_enabled : Bool
  is_playing : Bool
  is_paused : Bool
  audio_file : Option String
deriving DecidableEq

/-- Side effects the controller performs: enqueueing commands, driving the
pygame audio device, and user notifications / log lines. -/
inductive Effect where
  | enqueue (cmd : Command)
  | deviceLoad (path : String)
  | devicePlay
  | devicePause
  | deviceUnpause
  | deviceStop
  | notifySaved (path : String)
  | showError (msg : String)
  | uiLog (msg : String)
deriving DecidableEq

/-- Environment oracle for the controller's collaborators: pygame
availability (`HAS_PYGAME`) and whether `mixer.music.load`/`play`
succeed on the current artifact. -/
structure CEnv where
  hasPygame : Bool
  deviceOk : Bool
  playErr : String

/-- The controller state right after `__init__` (`src/tts_app.py:200-202`):
not playing, not paused, no artifact, every affordance created disabled. -/
def initState : AppState :=
  ⟨false, false, false, false, false, false, false, false, none⟩

/-- `OfflineTTSApp.update_media_buttons` (`src/tts_app.py:359-368`). -/
def update_media_buttons (s : AppState) : AppState :=
  let state_play := s.is_paused
  let state_pause := s.is_playing && !s.is_paused
  let state_stop := s.is_playing
  { s with pause_enabled := state_pause, resume_enabled := state_play,
           stop_enabled := state_stop, ff_enabled := state_stop }

/-- `OfflineTTSApp.change_voice` (`src/tts_app.py:284-286`): disable the
generate affordance and enqueue `load_model`. -/
def change_voice (s : AppState) (voice_name : String) : AppState × List Effect :=
  ({ s with gen_enabled := false },
   [Effect.enqueue (Command.load_model voice_name)])

/-- `OfflineTTSApp.on_stop` (`src/tts_app.py:331-336`). -/
def on_stop (env : CEnv) (s : AppState) : AppState × List Effect :=
  if env.hasPygame then
    (update_media_buttons { s with is_playing := false, is_paused := false },
     [Effect.deviceStop])
  else (s, [])

/-- `OfflineTTSApp.on_pause` (`src/tts_app.py:319-323`). -/
def on_pause (env : CEnv) (s : AppState) : AppState × List Effect :=
  if env.hasPygame && (s.is_playing && !s.is_paused) then
    (update_media_buttons { s with is_paused := true }, [Effect.devicePause])
  else (s, [])

/-- `OfflineTTSApp.on_resume` (`src/tts_app.py:325-329`). -/
def on_resume (env : CEnv) (s : AppState) : AppState × List Effect :=
  if env.hasPygame && s.is_paused then
    (update_media_buttons { s with is_paused := false }, [Effect.deviceUnpause])
  else (s, [])

/-- `OfflineTTSApp.on_gen_play` (`src/tts_app.py:288-294`); `text` is the
stripped text-widget content, so the Python truthiness test is a test
against the empty string. Stops current audio, disables the generate
affordance and enqueues a `generate` command with no file path. -/
def on_gen_play (env : CEnv) (s : AppState) (text : String) : AppState × List Effect :=
  if text = "" then (s, [])
  else
    let stopped := on_stop env s
    ({ stopped.1 with gen_enabled := false },
     stopped.2 ++ [Effect.enqueue (Command.generate text none)])

/-- `OfflineTTSApp.on_save` (`src/tts_app.py:296-301`); `f` is the save
dialog's answer (`none`/empty on cancel). Enqueues a `generate` command
carrying the chosen path; no affordance is touched. -/
def on_save (s : AppState) (text : String) (f : Option String) : AppState × List Effect :=
  if text = "" then (s, [])
  else
    match f with
    | none => (s, [])
    | some p =>
      if p = "" then (s, [])
      else (s, [Effect.enqueue (Command.generate text (some p))])

/-- `OfflineTTSApp.load_and_play_audio` (`src/tts_app.py:304-317`): load the
artifact into the device and start playback; on a device exception the
playback flags and artifact are left unchanged and the error is logged. -/
def load_and_play_audio (env : CEnv) (s : AppState) (path : String) :
    AppState × List Effect :=
  if env.hasPygame = false then (s, [Effect.showError "Pygame not installed."])
  else if env.deviceOk then
    (update_media_buttons
       { s with is_playing := true, is_paused := false, audio_file := some path },
     [Effect.deviceLoad path, Effect.devicePlay])
  else (s, [Effect.uiLog ("Playback error: " ++ env.playErr)])

/-- One iteration of the drain loop in
`OfflineTTSApp.process_worker_results` (`src/tts_app.py:370-397`):
how the controller reacts to a single result from the result channel. -/
def handle_result (env : CEnv) (s : AppState) (r : Result) : AppState × List Effect :=
  match r with
  | Result.log msg => (s, [Effect.uiLog msg])
  | Result.model_loaded _voice =>
    ({ s with gen_enabled := true, save_enabled := true }, [])
  | Result.generation_complete file_path is_temp =>
    let s1 := { s with gen_enabled := true }
    if file_path = "" then (s1, [])
    else if is_temp then load_and_play_audio env s1 file_path
    else (s1, [Effect.notifySaved file_path])

/-- States of the controller reachable from `initState` through its event
handlers, with arbitrary environments, user inputs and received results
at every step. -/
inductive Reachable : AppState → Prop where
  | init : Reachable initState
  | voice {s} (n : String) : Reachable s → Reachable (change_voice s n).1
  | genPlay {s} (env : CEnv) (t : String) :
      Reachable s → Reachable (on_gen_play env s t).1
  | save {s} (t : String) (f : Option String) :
      Reachable s → Reachable (on_save s t f).1
  | pause {s} (env : CEnv) : Reachable s → Reachable (on_pause env s).1
  | resume {s} (env : CEnv) : Reachable s → Reachable (on_resume env s).1
  | stop {s} (env : CEnv) : Reachable s → Reachable (on_stop env s).1
  | result {s} (env : CEnv) (r : Result) :
      Reachable s → Reachable (handle_result env s r).1

/-! ## The media-button invariant -/

/-- The playback flags are consistent (`Paused` implies an active track)
and the three transport affordances mirror the flags exactly as
`update_media_buttons` computes them. -/
def MediaInv (s : AppState) : Prop :=
  (s.is_paused = true → s.is_playing = true) ∧
  s.pause_enabled = (s.is_playing && !s.is_paused) ∧
  s.resume_enabled = s.is_paused ∧
  s.stop_enabled = s.is_playing

theorem mediaInv_update (s : AppState)
    (h : s.is_paused = true → s.is_playing = true) :
    MediaInv (update_media_buttons s) := by
  refine ⟨by simpa [update_media_buttons] using h, ?_, ?_, ?_⟩ <;>
    simp [update_media_buttons]

theorem mediaInv_reachable {s : AppState} (h : Reachable s) : MediaInv s := by
  induction h with
  | init => simp [MediaInv, initState]
  | voice n _ ih => exact ih
  | genPlay env t _ ih =>
    rename_i t0 _
    simp only [on_gen_play, on_stop]
    split
    · exact ih
    · split
      · exact mediaInv_update
          { t0 with is_playing := false, is_paused := false } (by simp)
      · exact ih
  | save t f _ ih =>
    simp only [on_save]
    split
    · exact ih
    · match f with
      | none => exact ih
      | some p =>
        simp only
        split
        · exact ih
        · exact ih
  | pause env _ ih =>
    rename_i t0 _
    simp only [on_pause]
    split
    · next hc =>
      simp only [Bool.and_eq_true, Bool.not_eq_true'] at hc
      exact mediaInv_update { t0 with is_paused := true } (by simp [hc.2.1])
    · exact ih
  | resume env _ ih =>
    rename_i t0 _
    simp only [on_resume]
    split
    · exact mediaInv_update { t0 with is_paused := false } (by simp)
    · exact ih
  | stop env _ ih =>
    rename_i t0 _
    simp only [on_stop]
    split
    · exact mediaInv_update
        { t0 with is_playing := false, is_paused := false } (by simp)
    · exact ih
  | result env r _ ih =>
    rename_i t0 _
    cases r with
    | log msg => exact ih
    | model_loaded v => exact ih
    | generation_complete fp it =>
      simp only [handle_result, load_and_play_audio]
      split
      · exact ih
      · split
        · split
          · exact ih
          · split
            · exact mediaInv_update
                { t0 with gen_enabled := true, is_playing := true,
                          is_paused := false, audio_file := some fp } (by simp)
            · exact ih
        · exact ih

/-- C2: in every reachable controller state, the transport affordances
match the §4.2 transition table: in Stopped (`is_playing = false`,
`is_paused = false`) Pause and Resume are disabled and the pause/resume
handlers are no-ops; in Playing (`is_playing = true`, `is_paused = false`)
Pause and Stop are enabled and Resume is disabled; in Paused
(`is_paused = true`) Resume and Stop are enabled and Pause is disabled. -/
theorem state_machine_safety (s : AppState) (h : Reachable s) :
    (s.is_playing = false → s.is_paused = false →
       s.pause_enabled = false ∧ s.resume_enabled = false ∧
       (∀ env : CEnv, on_pause env s = (s, []) ∧ on_resume env s = (s, []))) ∧
    (s.is_playing = true → s.is_paused = false →
       s.pause_enabled = true ∧ s.stop_enabled = true ∧ s.resume_enabled = false) ∧
    (s.is_paused = true →
       s.resume_enabled = true ∧ s.stop_enabled = true ∧ s.pause_enabled = false) := by
  obtain ⟨h1, h2, h3, h4⟩ := mediaInv_reachable h
  refine ⟨?_, ?_, ?_⟩
  · intro hpl hpa
    refine ⟨by simp [h2, hpl], by simp [h3, hpa], ?_⟩
    intro env
    constructor
    · simp [on_pause, hpl]
    · simp [on_resume, hpa]
  · intro hpl hpa
    exact ⟨by simp [h2, hpl, hpa], by simp [h4, hpl], by simp [h3, hpa]⟩
  · intro hpa
    exact ⟨by simp [h3, hpa], by simp [h4, h1 hpa], by simp [h2, hpa]⟩

/-- Witness for `state_machine_safety` at the concrete reachable state
obtained from `initState` by receiving a temporary `AudioReady` (which
moves the controller to Playing). -/
theorem state_machine_safety_witness :
    ((handle_result ⟨true, true, ""⟩ initState
        (Result.generation_complete "/tmp/t.wav" true)).1.is_playing = false →
      (handle_result ⟨true, true, ""⟩ initState
        (Result.generation_complete "/tmp/t.wav" true)).1.is_paused = false →
      (handle_result ⟨true, true, ""⟩ initState
        (Result.generation_complete "/tmp/t.wav" true)).1.pause_enabled = false ∧
      (handle_result ⟨true, true, ""⟩ initState
        (Result.generation_complete "/tmp/t.wav" true)).1.resume_enabled = false ∧
      (∀ env : CEnv,
        on_pause env (handle_result ⟨true, true, ""⟩ initState
          (Result.generation_complete "/tmp/t.wav" true)).1 =
          ((handle_result ⟨true, true, ""⟩ initState
            (Result.generation_complete "/tmp/t.wav" true)).1, []) ∧
        on_resume env (handle_result ⟨true, true, ""⟩ initState
          (Result.generation_complete "/tmp/t.wav" true)).1 =
          ((handle_result ⟨true, true, ""⟩ initState
            (Result.generation_complete "/tmp/t.wav" true)).1, []))) ∧
    ((handle_result ⟨true, true, ""⟩ initState
        (Result.generation_complete "/tmp/t.wav" true)).1.is_playing = true →
      (handle_result ⟨true, true, ""⟩ initState
        (Result.generation_complete "/tmp/t.wav" true)).1.is_paused = false →
      (handle_result ⟨true, true, ""⟩ initState
        (Result.generation_complete "/tmp/t.wav" true)).1.pause_enabled = true ∧
      (handle_result ⟨true, true, ""⟩ initState
        (Result.generation_complete "/tmp/t.wav" true)).1.stop_enabled = true ∧
      (handle_result ⟨true, true, ""⟩ initState
        (Result.generation_complete "/tmp/t.wav" true)).1.resume_enabled = false) ∧
    ((handle_result ⟨true, true, ""⟩ initState
        (Result.generation_complete "/tmp/t.wav" true)).1.is_paused = true →
      (handle_result ⟨true, true, ""⟩ initState
        (Result.generation_complete "/tmp/t.wav" true)).1.resume_enabled = true ∧
      (handle_result ⟨true, true, ""⟩ initState
        (Result.generation_complete "/tmp/t.wav" true)).1.stop_enabled = true ∧
      (handle_result ⟨true, true, ""⟩ initState
        (Result.generation_complete "/tmp/t.wav" true)).1.pause_enabled = false) :=
  state_machine_safety _
    (Reachable.result ⟨true, true, ""⟩
      (Result.generation_complete "/tmp/t.wav" true) Reachable.init)

/-! ## Worker-side claims -/

/-- A concrete worker environment used by witnesses: all collaborators
present and succeeding, no model files on disk. -/
def wenvBase : WEnv :=
  { hasTTS := true
    pathExists := fun _ => false
    downloadOk := true
    progressLogs := []
    extractOk := true
    engineOk := true
    loadErr := "load failed"
    elapsed := "0.42"
    synth := fun _ _ => some ⟨22050, [0, 0, 0]⟩
    genErr := "gen failed"
    tempPath := "/tmp/tmpabc123.wav"
    writeOk := true }

/-- C4: a `generate` command processed while no engine is installed emits
exactly one `log` result (`Model not loaded.`), never invokes synthesis
and produces no `generation_complete`. -/
theorem generate_before_load (env : WEnv) (s : WorkerState) (text : String)
    (fp : Option String) (h : s.tts = none) :
    generate_speech env s text fp = ⟨[Result.log "Model not loaded."], none⟩ := by
  simp [generate_speech, h]

/-- Witness for `generate_before_load`: the fresh worker state. -/
theorem generate_before_load_witness :
    (⟨none, none⟩ : WorkerState).tts = none ∧
    generate_speech wenvBase ⟨none, none⟩ "hello" none =
      ⟨[Result.log "Model not loaded."], none⟩ :=
  ⟨rfl, generate_before_load wenvBase ⟨none, none⟩ "hello" none rfl⟩

/-- Worker-state invariant: whenever a current voice name is recorded, it
is a key of the static catalog. Holds initially (`self.current_voice_name
= None`) and is preserved by `load_model`, which only ever stores a name
it found in `MODELS`. -/
def WInv (s : WorkerState) : Prop :=
  ∀ v, s.current_voice_name = some v → (MODELS.lookup v).isSome = true

theorem winv_load_engine (env : WEnv) (s : WorkerState) (voice_name : String)
    (model_info : ModelInfo) (pre : List Result) (dls exs : Nat)
    (h : WInv s) (hm : MODELS.lookup voice_name = some model_info) :
    WInv (load_engine env s voice_name model_info pre dls exs).state := by
  unfold load_engine
  split
  · intro v hv
    obtain rfl : voice_name = v := by simpa using hv
    simp [hm]
  · exact h

theorem load_model_preserves_WInv (env : WEnv) (s : WorkerState) (name : String)
    (h : WInv s) : WInv (load_model env s name).state := by
  unfold load_model
  split
  · exact h
  · split
    · exact h
    · split
      · exact h
      · next model_info hm =>
        split_ifs <;>
          first
          | exact h
          | exact winv_load_engine env s name model_info _ _ _ h hm

/-- C6: a `load_model` command whose voice name is not a catalog key (and
whose worker state satisfies the reachability invariant `WInv`) leaves the
state untouched and emits exactly one `log`, carrying the error indicator
`Error: Unknown voice.`; no `model_loaded` is emitted and no collaborator
is invoked. -/
theorem unknown_voice_single_log (env : WEnv) (s : WorkerState) (name : String)
    (hT : env.hasTTS = true) (hU : MODELS.lookup name = none) (hI : WInv s) :
    load_model env s name = ⟨s, [Result.log "Error: Unknown voice."], 0, 0, 0⟩ := by
  have hcv : (s.current_voice_name == some name) = false := by
    cases hc : s.current_voice_name with
    | none => rfl
    | some v =>
      by_cases hv : v = name
      · subst hv
        have := hI v hc
        rw [hU] at this
        simp at this
      · simp [hv]
  simp [load_model, hT, hcv, hU]

/-- Witness for `unknown_voice_single_log`: `LoadVoice` for the
out-of-catalog name `Nonexistent` on a fresh worker. -/
theorem unknown_voice_single_log_witness :
    wenvBase.hasTTS = true ∧ MODELS.lookup "Nonexistent" = none ∧
    load_model wenvBase ⟨none, none⟩ "Nonexistent" =
      ⟨⟨none, none⟩, [Result.log "Error: Unknown voice."], 0, 0, 0⟩ :=
  ⟨rfl, by decide,
   unknown_voice_single_log wenvBase ⟨none, none⟩ "Nonexistent" rfl (by decide)
     (fun v hv => Option.noConfusion hv)⟩

theorem fast_path_eq (env : WEnv) (s : WorkerState) (name : String)
    (hT : env.hasTTS = true) (h1 : s.tts.isSome = true)
    (h2 : s.current_voice_name = some name) :
    load_model env s name =
      ⟨s, [Result.log ("Voice '" ++ name ++ "' already loaded."),
           Result.model_loaded name], 0, 0, 0⟩ := by
  simp [load_model, hT, h1, h2]

theorem load_engine_spec (env : WEnv) (s : WorkerState) (voice_name : String)
    (model_info : ModelInfo) (pre : List Result) (dls exs : Nat)
    (hpre : Result.model_loaded voice_name ∉ pre) :
    (load_engine env s voice_name model_info pre dls exs).constructions = 1 ∧
    (Result.model_loaded voice_name ∈
        (load_engine env s voice_name model_info pre dls exs).results →
      (load_engine env s voice_name model_info pre dls exs).state.tts.isSome = true ∧
      (load_engine env s voice_name model_info pre dls exs).state.current_voice_name
        = some voice_name ∧
      (load_engine env s voice_name model_info pre dls exs).results.count
        (Result.model_loaded voice_name) = 1) := by
  unfold load_engine
  split
  · refine ⟨rfl, fun _ => ⟨rfl, rfl, ?_⟩⟩
    rw [List.count_append, List.count_eq_zero.mpr hpre]
    simp [List.count_cons]
  · refine ⟨rfl, fun hmem => ?_⟩
    rcases List.mem_append.mp hmem with hm | hm
    · exact absurd hm hpre
    · simp at hm

/-- Whenever `load_model` emits `model_loaded name`, the resulting worker
state has an engine installed and records `name` as the current voice,
`model_loaded name` appears exactly once among the emitted results, and
the engine constructor was invoked at most once. -/
theorem load_model_model_loaded (env : WEnv) (s : WorkerState) (name : String)
    (h : Result.model_loaded name ∈ (load_model env s name).results) :
    (load_model env s name).state.tts.isSome = true ∧
    (load_model env s name).state.current_voice_name = some name ∧
    (load_model env s name).results.count (Result.model_loaded name) = 1 ∧
    (load_model env s name).constructions ≤ 1 := by
  by_cases hT : env.hasTTS = false
  · simp [load_model, hT] at h
  by_cases hfast : (s.tts.isSome && (s.current_voice_name == some name)) = true
  · have hred : load_model env s name =
        ⟨s, [Result.log ("Voice '" ++ name ++ "' already loaded."),
             Result.model_loaded name], 0, 0, 0⟩ := by
      simp [load_model, hT, hfast]
    rw [hred]
    simp only [Bool.and_eq_true] at hfast
    refine ⟨hfast.1, by simpa using hfast.2, by simp [List.count_cons], by simp⟩
  cases hlk : MODELS.lookup name with
  | none => simp [load_model, hT, hfast, hlk] at h
  | some mi =>
    by_cases hp1 : env.pathExists (mi.dir ++ "/" ++ mi.onnx) = true
    · have hred : load_model env s name = load_engine env s name mi [] 0 0 := by
        simp [load_model, hT, hfast, hlk, hp1]
      rw [hred] at h ⊢
      obtain ⟨hc, hrest⟩ := load_engine_spec env s name mi [] 0 0 (by simp)
      obtain ⟨ha, hb, hcnt⟩ := hrest h
      exact ⟨ha, hb, hcnt, le_of_eq hc⟩
    · by_cases hp2 : env.pathExists mi.archive = true
      · have hred : load_model env s name = load_engine env s name mi
            [Result.log ("Downloading " ++ name ++ "..."),
             Result.log "Extracting..."] 0 1 := by
          simp [load_model, hT, hfast, hlk, hp1, hp2]
        rw [hred] at h ⊢
        obtain ⟨hc, hrest⟩ := load_engine_spec env s name mi
          [Result.log ("Downloading " ++ name ++ "..."),
           Result.log "Extracting..."] 0 1 (by simp)
        obtain ⟨ha, hb, hcnt⟩ := hrest h
        exact ⟨ha, hb, hcnt, le_of_eq hc⟩
      · by_cases hdl : env.downloadOk = true
        · have hred : load_model env s name = load_engine env s name mi
              ([Result.log ("Downloading " ++ name ++ "...")]
                ++ env.progressLogs.map Result.log
                ++ [Result.log "Extracting..."]) 1 1 := by
            simp [load_model, hT, hfast, hlk, hp1, hp2, hdl]
          rw [hred] at h ⊢
          obtain ⟨hc, hrest⟩ := load_engine_spec env s name mi
            ([Result.log ("Downloading " ++ name ++ "...")]
              ++ env.progressLogs.map Result.log
              ++ [Result.log "Extracting..."]) 1 1 (by simp)
          obtain ⟨ha, hb, hcnt⟩ := hrest h
          exact ⟨ha, hb, hcnt, le_of_eq hc⟩
        · have hred : load_model env s name =
              ⟨s, [Result.log ("Downloading " ++ name ++ "...")]
                    ++ env.progressLogs.map Result.log
                    ++ [Result.log "Download failed."], 1, 0, 0⟩ := by
            simp [load_model, hT, hfast, hlk, hp1, hp2, hdl]
          rw [hred] at h
          simp at h

/-- C3: the idempotent fast path. If the currently installed engine is
bound to the requested voice name, `load_model` emits exactly a `log`
followed by `model_loaded` for that name, with no download, no
extraction and no engine construction; consequently, once a `load_model`
has emitted `model_loaded name`, repeating `load_model name` yields two
`model_loaded` results in total while the second invocation performs no
acquisition or construction, and the engine is constructed at most once
across both commands. -/
theorem load_voice_idempotent (env env2 : WEnv) (s : WorkerState) (name : String)
    (eng : Engine) (hT : env.hasTTS = true) (hT2 : env2.hasTTS = true) :
    (s.tts = some eng → s.current_voice_name = some name →
      load_model env s name =
        ⟨s, [Result.log ("Voice '" ++ name ++ "' already loaded."),
             Result.model_loaded name], 0, 0, 0⟩) ∧
    (Result.model_loaded name ∈ (load_model env s name).results →
      ((load_model env s name).results
        ++ (load_model env2 (load_model env s name).state name).results).count
          (Result.model_loaded name) = 2 ∧
      (load_model env s name).constructions
        + (load_model env2 (load_model env s name).state name).constructions ≤ 1 ∧
      (load_model env2 (load_model env s name).state name).downloads = 0 ∧
      (load_model env2 (load_model env s name).state name).extracts = 0 ∧
      (load_model env2 (load_model env s name).state name).constructions = 0) := by
  constructor
  · intro h1 h2
    exact fast_path_eq env s name hT (by simp [h1]) h2
  · intro hmem
    obtain ⟨ha, hb, hcnt, hc⟩ := load_model_model_loaded env s name hmem
    have h2 : load_model env2 (load_model env s name).state name =
        ⟨(load_model env s name).state,
         [Result.log ("Voice '" ++ name ++ "' already loaded."),
          Result.model_loaded name], 0, 0, 0⟩ :=
      fast_path_eq env2 _ name hT2 ha hb
    rw [h2]
    refine ⟨?_, by simpa using hc, rfl, rfl, rfl⟩
    rw [List.count_append, hcnt]
    simp [List.count_cons]

/-- Witness for `load_voice_idempotent`: two consecutive
`LoadVoice "Female (Amy)"` commands on a worker that starts with the Amy
engine already installed. -/
theorem load_voice_idempotent_witness :
    ((⟨some ⟨"m", "t", "d"⟩, some "Female (Amy)"⟩ : WorkerState).tts
        = some ⟨"m", "t", "d"⟩ →
      (⟨some ⟨"m", "t", "d"⟩, some "Female (Amy)"⟩ : WorkerState).current_voice_name
        = some "Female (Amy)" →
      load_model wenvBase ⟨some ⟨"m", "t", "d"⟩, some "Female (Amy)"⟩ "Female (Amy)" =
        ⟨⟨some ⟨"m", "t", "d"⟩, some "Female (Amy)"⟩,
         [Result.log ("Voice '" ++ "Female (Amy)" ++ "' already loaded."),
          Result.model_loaded "Female (Amy)"], 0, 0, 0⟩) ∧
    (Result.model_loaded "Female (Amy)" ∈
        (load_model wenvBase ⟨some ⟨"m", "t", "d"⟩, some "Female (Amy)"⟩
          "Female (Amy)").results →
      ((load_model wenvBase ⟨some ⟨"m", "t", "d"⟩, some "Female (Amy)"⟩
           "Female (Amy)").results
        ++ (load_model wenvBase
             (load_model wenvBase ⟨some ⟨"m", "t", "d"⟩, some "Female (Amy)"⟩
               "Female (Amy)").state "Female (Amy)").results).count
          (Result.model_loaded "Female (Amy)") = 2 ∧
      (load_model wenvBase ⟨some ⟨"m", "t", "d"⟩, some "Female (Amy)"⟩
          "Female (Amy)").constructions
        + (load_model wenvBase
            (load_model wenvBase ⟨some ⟨"m", "t", "d"⟩, some "Female (Amy)"⟩
              "Female (Amy)").state "Female (Amy)").constructions ≤ 1 ∧
      (load_model wenvBase
         (load_model wenvBase ⟨some ⟨"m", "t", "d"⟩, some "Female (Amy)"⟩
           "Female (Amy)").state "Female (Amy)").downloads = 0 ∧
      (load_model wenvBase
         (load_model wenvBase ⟨some ⟨"m", "t", "d"⟩, some "Female (Amy)"⟩
           "Female (Amy)").state "Female (Amy)").extracts = 0 ∧
      (load_model wenvBase
         (load_model wenvBase ⟨some ⟨"m", "t", "d"⟩, some "Female (Amy)"⟩
           "Female (Amy)").state "Female (Amy)").constructions = 0) :=
  load_voice_idempotent wenvBase wenvBase
    ⟨some ⟨"m", "t", "d"⟩, some "Female (Amy)"⟩ "Female (Amy)" ⟨"m", "t", "d"⟩ rfl rfl

theorem load_failure_state_unchanged (env : WEnv) (s : WorkerState) (name : String)
    (hE : env.engineOk = false) : (load_model env s name).state = s := by
  unfold load_model
  split
  · rfl
  · split
    · rfl
    · split
      · rfl
      · split_ifs <;> first | rfl | simp [load_engine, hE]

/-- C10: when engine construction fails (`env.engineOk = false`), a
`load_model` command leaves the worker state — installed engine and
current voice name — exactly as it was, so a subsequent `generate`
still synthesizes with the previously installed engine and (with the
collaborators succeeding) emits its `generation_complete`. -/
theorem load_failure_atomic (env env2 : WEnv) (s : WorkerState)
    (name text : String) (fp : Option String) (eng : Engine) (audio : Audio)
    (hE : env.engineOk = false) (hs : s.tts = some eng)
    (hsy : env2.synth eng text = some audio) (hw : env2.writeOk = true) :
    (load_model env s name).state = s ∧
    (generate_speech env2 (load_model env s name).state text fp).usedEngine
      = some eng ∧
    ∃ p b, Result.generation_complete p b ∈
      (generate_speech env2 (load_model env s name).state text fp).results := by
  have hst := load_failure_state_unchanged env s name hE
  refine ⟨hst, ?_, ?_⟩
  · rw [hst]
    simp [generate_speech, hs, hsy, hw]
  · rw [hst]
    cases fp with
    | none => exact ⟨env2.tempPath, true, by simp [generate_speech, hs, hsy, hw]⟩
    | some p =>
      by_cases hp : p = ""
      · exact ⟨env2.tempPath, true, by simp [generate_speech, hs, hsy, hw, hp]⟩
      · exact ⟨p, false, by simp [generate_speech, hs, hsy, hw, hp]⟩

/-- Witness for `load_failure_atomic`: a failed `LoadVoice "Male (Ryan)"`
on a worker holding an installed engine, followed by a `Generate`. -/
theorem load_failure_atomic_witness :
    (load_model { wenvBase with engineOk := false }
       ⟨some ⟨"m", "t", "d"⟩, some "Female (Amy)"⟩ "Male (Ryan)").state =
      ⟨some ⟨"m", "t", "d"⟩, some "Female (Amy)"⟩ ∧
    (generate_speech wenvBase
       (load_model { wenvBase with engineOk := false }
         ⟨some ⟨"m", "t", "d"⟩, some "Female (Amy)"⟩ "Male (Ryan)").state
       "hi" none).usedEngine = some ⟨"m", "t", "d"⟩ ∧
    ∃ p b, Result.generation_complete p b ∈
      (generate_speech wenvBase
        (load_model { wenvBase with engineOk := false }
          ⟨some ⟨"m", "t", "d"⟩, some "Female (Amy)"⟩ "Male (Ryan)").state
        "hi" none).results :=
  load_failure_atomic { wenvBase with engineOk := false } wenvBase
    ⟨some ⟨"m", "t", "d"⟩, some "Female (Amy)"⟩ "Male (Ryan)" "hi" none
    ⟨"m", "t", "d"⟩ ⟨22050, [0, 0, 0]⟩ rfl rfl rfl rfl

/-- C7 counterexample: a `generate` command that carries the explicit
destination path `""` does not yield `AudioReady` for that path with
`isTemporary = false`; the Python truthiness test `if not file_path`
treats the given empty path as absent and the worker emits a temporary
artifact instead. -/
theorem given_empty_path_counterexample :
    (generate_speech wenvBase ⟨some ⟨"m", "t", "d"⟩, some "Female (Amy)"⟩
       "hello" (some "")).results =
      [Result.log "Generating...", Result.log "Done (0.42s)",
       Result.generation_complete "/tmp/tmpabc123.wav" true] ∧
    Result.generation_complete "" false ∉
      (generate_speech wenvBase ⟨some ⟨"m", "t", "d"⟩, some "Female (Amy)"⟩
        "hello" (some "")).results := by
  exact ⟨rfl, by decide⟩

/-- C7 (amended): a successfully synthesized `generate` command whose
destination path is absent or empty (Python-falsy) emits `AudioReady`
with the freshly allocated temp path and `isTemporary = true`; one whose
destination path is given and non-empty emits `AudioReady` with exactly
that path and `isTemporary = false`. -/
theorem generation_artifact_path (env : WEnv) (s : WorkerState) (text : String)
    (fp : Option String) (eng : Engine) (audio : Audio) (p : String)
    (hs : s.tts = some eng) (hsy : env.synth eng text = some audio)
    (hw : env.writeOk = true) :
    (fp = none ∨ fp = some "" →
      (generate_speech env s text fp).results =
        [Result.log "Generating...",
         Result.log ("Done (" ++ env.elapsed ++ "s)"),
         Result.generation_complete env.tempPath true]) ∧
    (fp = some p → p ≠ "" →
      (generate_speech env s text fp).results =
        [Result.log "Generating...",
         Result.log ("Done (" ++ env.elapsed ++ "s)"),
         Result.generation_complete p false]) := by
  constructor
  · rintro (rfl | rfl) <;> simp [generate_speech, hs, hsy, hw]
  · rintro rfl hp
    simp [generate_speech, hs, hsy, hw, hp]

/-- Witness for `generation_artifact_path`: a save-style `generate` to
`/out.wav` on a worker with an installed engine. -/
theorem generation_artifact_path_witness :
    ((some "/out.wav" = none ∨ some "/out.wav" = some "" →
      (generate_speech wenvBase ⟨some ⟨"m", "t", "d"⟩, some "Female (Amy)"⟩
         "hello" (some "/out.wav")).results =
        [Result.log "Generating...",
         Result.log ("Done (" ++ wenvBase.elapsed ++ "s)"),
         Result.generation_complete wenvBase.tempPath true]) ∧
    (some "/out.wav" = some "/out.wav" → "/out.wav" ≠ "" →
      (generate_speech wenvBase ⟨some ⟨"m", "t", "d"⟩, some "Female (Amy)"⟩
         "hello" (some "/out.wav")).results =
        [Result.log "Generating...",
         Result.log ("Done (" ++ wenvBase.elapsed ++ "s)"),
         Result.generation_complete "/out.wav" false])) :=
  generation_artifact_path wenvBase ⟨some ⟨"m", "t", "d"⟩, some "Female (Amy)"⟩
    "hello" (some "/out.wav") ⟨"m", "t", "d"⟩ ⟨22050, [0, 0, 0]⟩ "/out.wav"
    rfl rfl rfl

/-- A worker environment where the Amy archive is already on disk, the
model files are not, extraction fails, and engine construction
nevertheless succeeds. -/
def wenvExtractFail : WEnv :=
  { wenvBase with
    pathExists := fun p => p == "vits-piper-en_US-amy-low.tar.bz2"
    extractOk := false }

/-- C5 (code bug): `load_model` ignores the Boolean returned by
`extract_file` (`src/tts_app.py:133`). With the unpack step failing
(`extractOk = false`), the command emits no failure `log` for that step
and proceeds to engine construction; if construction succeeds it even
emits `model_loaded` — the emitted results are exactly the progress
logs followed by `model_loaded`, contradicting the claim that a
descriptive failure `Log` is emitted and `VoiceReady` is not. -/
theorem extract_failure_ignored :
    wenvExtractFail.extractOk = false ∧
    load_model wenvExtractFail ⟨none, none⟩ "Female (Amy)" =
      ⟨⟨some ⟨"vits-piper-en_US-amy-low/en_US-amy-low.onnx",
             "vits-piper-en_US-amy-low/tokens.txt",
             "vits-piper-en_US-amy-low/espeak-ng-data"⟩,
        some "Female (Amy)"⟩,
       [Result.log "Downloading Female (Amy)...",
        Result.log "Extracting...",
        Result.log "Loading Engine...",
        Result.log "Loaded: Female (Amy)",
        Result.model_loaded "Female (Amy)"],
       0, 1, 1⟩ :=
  ⟨rfl, rfl⟩

/-- C1 (code bug): after a voice change to an unknown name disables the
generate affordance, the worker answers with the single result
`log "Error: Unknown voice."`; processing that (and any) `log` result
leaves the generate affordance disabled — `process_worker_results`
(`src/tts_app.py:374-376`) only logs, so the affordance is never
re-enabled and the UI deadlocks on the silently-failed command. -/
theorem log_does_not_reenable_generate :
    ((change_voice { initState with gen_enabled := true, save_enabled := true }
        "Nonexistent").1).gen_enabled = false ∧
    (load_model wenvBase ⟨none, none⟩ "Nonexistent").results =
      [Result.log "Error: Unknown voice."] ∧
    ((load_model wenvBase ⟨none, none⟩ "Nonexistent").results.foldl
        (fun t r => (handle_result ⟨true, true, ""⟩ t r).1)
        (change_voice { initState with gen_enabled := true, save_enabled := true }
          "Nonexistent").1).gen_enabled = false := by
  refine ⟨rfl, by decide, by decide⟩

/-- C8: in every controller state, a received
`AudioReady{path, isTemporary = true}` (with pygame available, the
device succeeding and the path non-empty, as holds for every
worker-emitted artifact) loads the artifact into the device, starts
playback and moves the playback state to Playing; a received
`AudioReady{path, isTemporary = false}` notifies the user the file was
saved and leaves the playback state and artifact unchanged. -/
theorem audio_ready_transitions (env : CEnv) (s : AppState) (p : String)
    (hpg : env.hasPygame = true) (hdev : env.deviceOk = true) (hp : p ≠ "") :
    handle_result env s (Result.generation_complete p true) =
      (update_media_buttons
         { s with gen_enabled := true, is_playing := true, is_paused := false,
                  audio_file := some p },
       [Effect.deviceLoad p, Effect.devicePlay]) ∧
    (handle_result env s (Result.generation_complete p true)).1.is_playing
      = true ∧
    (handle_result env s (Result.generation_complete p true)).1.is_paused
      = false ∧
    handle_result env s (Result.generation_complete p false) =
      ({ s with gen_enabled := true }, [Effect.notifySaved p]) ∧
    (handle_result env s (Result.generation_complete p false)).1.is_playing
      = s.is_playing ∧
    (handle_result env s (Result.generation_complete p false)).1.is_paused
      = s.is_paused ∧
    (handle_result env s (Result.generation_complete p false)).1.audio_file
      = s.audio_file := by
  have h1 : handle_result env s (Result.generation_complete p true) =
      (update_media_buttons
         { s with gen_enabled := true, is_playing := true, is_paused := false,
                  audio_file := some p },
       [Effect.deviceLoad p, Effect.devicePlay]) := by
    simp [handle_result, load_and_play_audio, hpg, hdev, hp]
  have h2 : handle_result env s (Result.generation_complete p false) =
      ({ s with gen_enabled := true }, [Effect.notifySaved p]) := by
    simp [handle_result, hp]
  refine ⟨h1, ?_, ?_, h2, ?_, ?_, ?_⟩ <;> simp [h1, h2, update_media_buttons]

/-- Witness for `audio_ready_transitions`: the initial controller state
receiving temporary and persistent artifacts at `/tmp/t.wav`. -/
theorem audio_ready_transitions_witness :
    handle_result ⟨true, true, ""⟩ initState
        (Result.generation_complete "/tmp/t.wav" true) =
      (update_media_buttons
         { initState with gen_enabled := true, is_playing := true,
                          is_paused := false, audio_file := some "/tmp/t.wav" },
       [Effect.deviceLoad "/tmp/t.wav", Effect.devicePlay]) ∧
    (handle_result ⟨true, true, ""⟩ initState
        (Result.generation_complete "/tmp/t.wav" true)).1.is_playing = true ∧
    (handle_result ⟨true, true, ""⟩ initState
        (Result.generation_complete "/tmp/t.wav" true)).1.is_paused = false ∧
    handle_result ⟨true, true, ""⟩ initState
        (Result.generation_complete "/tmp/t.wav" false) =
      ({ initState with gen_enabled := true },
       [Effect.notifySaved "/tmp/t.wav"]) ∧
    (handle_result ⟨true, true, ""⟩ initState
        (Result.generation_complete "/tmp/t.wav" false)).1.is_playing
      = initState.is_playing ∧
    (handle_result ⟨true, true, ""⟩ initState
        (Result.generation_complete "/tmp/t.wav" false)).1.is_paused
      = initState.is_paused ∧
    (handle_result ⟨true, true, ""⟩ initState
        (Result.generation_complete "/tmp/t.wav" false)).1.audio_file
      = initState.audio_file :=
  audio_ready_transitions ⟨true, true, ""⟩ initState "/tmp/t.wav" rfl rfl
    (by decide)

/-- C9 counterexample: `on_save` with non-empty text and a chosen path
enqueues a `generate` command carrying that path while the generate
affordance is (and stays) enabled — the source never disables
`btn_gen_play` on the save path (`src/tts_app.py:296-301`). -/
theorem on_save_leaves_generate_enabled :
    (on_save { initState with gen_enabled := true, save_enabled := true }
       "hello" (some "/out.wav")).2 =
      [Effect.enqueue (Command.generate "hello" (some "/out.wav"))] ∧
    (on_save { initState with gen_enabled := true, save_enabled := true }
       "hello" (some "/out.wav")).1.gen_enabled = true := by
  exact ⟨by decide, by decide⟩

/-- C9 (amended): the controller disables the generate affordance when
enqueueing a `load_model` command (voice change) and when enqueueing a
temp-file `generate` command (generate-and-play), and a `log` result
does not re-enable it (only `model_loaded`/`generation_complete` do);
but a `generate` command enqueued through the save dialog leaves the
generate affordance untouched. -/
theorem generate_disabled_on_enqueue (env : CEnv) (s s2 : AppState)
    (name text msg : String) (ht : text ≠ "")
    (hg : s2.gen_enabled = false) :
    ((change_voice s name).1.gen_enabled = false ∧
      (change_voice s name).2 = [Effect.enqueue (Command.load_model name)]) ∧
    ((on_gen_play env s text).1.gen_enabled = false ∧
      Effect.enqueue (Command.generate text none) ∈ (on_gen_play env s text).2) ∧
    (handle_result env s2 (Result.log msg)).1.gen_enabled = false ∧
    (∀ f : Option String, (on_save s text f).1 = s) := by
  refine ⟨⟨rfl, rfl⟩, ⟨?_, ?_⟩, ?_, ?_⟩
  · simp [on_gen_play, ht]
  · simp [on_gen_play, ht]
  · simpa [handle_result] using hg
  · intro f
    unfold on_save
    split
    · rfl
    · match f with
      | none => rfl
      | some p =>
        simp only
        split
        · rfl
        · rfl

/-- Witness for `generate_disabled_on_enqueue`: concrete voice change and
generate-and-play from the post-init ready state. -/
theorem generate_disabled_on_enqueue_witness :
    ((change_voice { initState with gen_enabled := true, save_enabled := true }
        "Male (Ryan)").1.gen_enabled = false ∧
      (change_voice { initState with gen_enabled := true, save_enabled := true }
        "Male (Ryan)").2 =
        [Effect.enqueue (Command.load_model "Male (Ryan)")]) ∧
    ((on_gen_play ⟨true, true, ""⟩
        { initState with gen_enabled := true, save_enabled := true }
        "hello").1.gen_enabled = false ∧
      Effect.enqueue (Command.generate "hello" none) ∈
        (on_gen_play ⟨true, true, ""⟩
          { initState with gen_enabled := true, save_enabled := true }
          "hello").2) ∧
    (handle_result ⟨true, true, ""⟩ initState
        (Result.log "Download failed.")).1.gen_enabled = false ∧
    (∀ f : Option String,
      (on_save { initState with gen_enabled := true, save_enabled := true }
        "hello" f).1 =
        { initState with gen_enabled := true, save_enabled := true }) :=
  generate_disabled_on_enqueue ⟨true, true, ""⟩
    { initState with gen_enabled := true, save_enabled := true } initState
    "Male (Ryan)" "hello" "Download failed." (by decide) rfl

end Tts
